import Mathlib

/-!
Verification development for the RAG demo script `src/RAG-001/index.py`.

The script is sequential glue around the llama_index library: it loads
documents, shapes their metadata, runs an ingestion pipeline (sentence
splitting, title extraction, questions-answered extraction), indexes the
resulting chunks, and answers one query.  The definitions below embed the
script's own code directly; behaviour that lives inside the external
library (splitting, rendering, retrieval) is modelled from the spec and
marked as such in the doc comments.
-/

/-- A document record as produced by the loader and mutated by the shaping
loop.  Fields follow the llama_index `Document` schema used by the script:
raw text, a metadata mapping, the text-rendering template, and the two
per-rendering-mode sets of excluded metadata keys described by the spec's
data model. -/
structure Doc where
  id_ : String
  text : String
  metadata : List (String × String)
  text_template : String
  excluded_llm_metadata_keys : List String
  excluded_embed_metadata_keys : List String
deriving Repr, DecidableEq

/-- The template string assigned to every document by the shaping loop
(line 79 of `index.py`). -/
def TEXT_TEMPLATE : String := "Metadata:\n{metadata_str}\n-----\nContent:\n{content}"

/-- The body of the shaping loop (lines 77-83 of `index.py`): set the text
template, then append `page_label` to `excluded_embed_metadata_keys` unless
it is already present. -/
def shapeDoc (d : Doc) : Doc :=
  let d := { d with text_template := TEXT_TEMPLATE }
  if "page_label" ∈ d.excluded_embed_metadata_keys then d
  else { d with excluded_embed_metadata_keys :=
                  d.excluded_embed_metadata_keys ++ ["page_label"] }

/-- The shaping loop applied to the whole loaded document list. -/
def shapeDocs (docs : List Doc) : List Doc := docs.map shapeDoc

/-- Modelled from the spec: rendering of a document for the language model
happens inside llama_index (`get_content(metadata_mode=MetadataMode.LLM)`),
not in this repository.  Per the spec's data model a document carries "a set
of metadata keys excluded from each rendering mode", so the keys visible in
LLM-mode rendering are the metadata keys not in
`excluded_llm_metadata_keys`. -/
def llmVisibleKeys (d : Doc) : List String :=
  (d.metadata.map Prod.fst).filter (fun k => ! d.excluded_llm_metadata_keys.contains k)

/-- Modelled from the spec: keys visible in embedding-mode rendering are the
metadata keys not in `excluded_embed_metadata_keys`. -/
def embedVisibleKeys (d : Doc) : List String :=
  (d.metadata.map Prod.fst).filter (fun k => ! d.excluded_embed_metadata_keys.contains k)

/-- A freshly loaded document whose metadata has a `page_label` entry and
whose exclusion lists are empty, as produced by the directory loader. -/
def d1 : Doc :=
  { id_ := "doc1"
    text := "hello world"
    metadata := [("page_label", "1"), ("file_name", "a.txt")]
    text_template := "{metadata_str}\n\n{content}"
    excluded_llm_metadata_keys := []
    excluded_embed_metadata_keys := [] }

theorem mem_shapeDoc_excluded_embed (d : Doc) :
    "page_label" ∈ (shapeDoc d).excluded_embed_metadata_keys := by
  simp only [shapeDoc]
  by_cases h : "page_label" ∈ d.excluded_embed_metadata_keys <;> simp [h]

theorem shapeDoc_idem (d : Doc) : shapeDoc (shapeDoc d) = shapeDoc d := by
  obtain ⟨i, t, m, tt, el, ee⟩ := d
  simp only [shapeDoc]
  by_cases h : "page_label" ∈ ee <;> simp [h]

/-- C1: the shaping loop appends `page_label` to
`excluded_embed_metadata_keys`, not to `excluded_llm_metadata_keys`, so
after shaping a freshly loaded document the key is still visible in
LLM-mode rendering and is hidden only from the embedding model — contrary
to the claim (and to the code's own comment "exclude page label from
llm"). -/
theorem c1_shaping_hides_from_embed_not_llm :
    "page_label" ∈ llmVisibleKeys (shapeDoc d1) ∧
    "page_label" ∉ (shapeDoc d1).excluded_llm_metadata_keys ∧
    "page_label" ∉ embedVisibleKeys (shapeDoc d1) ∧
    "page_label" ∈ (shapeDoc d1).excluded_embed_metadata_keys := by decide

/-- C2: after the shaping loop has run, every document's
`excluded_embed_metadata_keys` list contains `page_label`. -/
theorem c2_excluded_embed_contains_page_label
    (docs : List Doc) (d : Doc) (hd : d ∈ shapeDocs docs) :
    "page_label" ∈ d.excluded_embed_metadata_keys := by
  obtain ⟨d₀, _, rfl⟩ := List.mem_map.mp hd
  exact mem_shapeDoc_excluded_embed d₀

theorem c2_excluded_embed_contains_page_label_witness :
    shapeDoc d1 ∈ shapeDocs [d1] ∧
    "page_label" ∈ (shapeDoc d1).excluded_embed_metadata_keys :=
  ⟨by decide, c2_excluded_embed_contains_page_label [d1] (shapeDoc d1) (by decide)⟩

/-- C10: the shaping loop is idempotent — running it a second time over the
already-shaped document list leaves every document unchanged; in
particular the membership guard prevents `page_label` from being appended a
second time. -/
theorem c10_shaping_idempotent (docs : List Doc) :
    shapeDocs (shapeDocs docs) = shapeDocs docs := by
  unfold shapeDocs
  rw [List.map_map]
  exact List.map_congr_left fun d _ => shapeDoc_idem d

/-- A chunk (node): a text fragment derived from exactly one document,
carrying that document's metadata (augmented by the extractors) and
provenance to its source document. -/
structure Node where
  text : String
  metadata : List (String × String)
  source_doc_id : String
deriving Repr, DecidableEq

/-- In llama_index a `Document` is itself a node, so the ingestion
pipeline's input nodes are the loaded documents: the node view of a
document has its text and metadata and records the document as source. -/
def docToNode (d : Doc) : Node :=
  { text := d.text, metadata := d.metadata, source_doc_id := d.id_ }

/-- Configuration of the `SentenceSplitter` built at lines 110-114 of
`index.py`. -/
structure SentenceSplitterCfg where
  separator : String
  chunk_size : Nat
  chunk_overlap : Nat
deriving Repr, DecidableEq

/-- `text_splitter = SentenceSplitter(separator=" ", chunk_size=1024,
chunk_overlap=128)` (lines 110-114 of `index.py`). -/
def text_splitter : SentenceSplitterCfg :=
  { separator := " ", chunk_size := 1024, chunk_overlap := 128 }

/-- Modelled from the spec: the `SentenceSplitter` implementation lives in
the external llama_index library, not in this repository.  The spec
describes it as splitting text into fixed-size overlapping chunks measured
in tokens, deterministic given configuration and input text.  The fuel
argument (initially the token count) only guarantees termination; with a
positive stride it is never exhausted. -/
def chunkWindowsAux (size overlap : Nat) : Nat → List String → List (List String)
  | 0, toks => [toks]
  | fuel + 1, toks =>
    if toks.length ≤ size then [toks]
    else toks.take size :: chunkWindowsAux size overlap fuel (toks.drop (size - overlap))

def chunkWindows (size overlap : Nat) (toks : List String) : List (List String) :=
  chunkWindowsAux size overlap toks.length toks

/-- Modelled from the spec: tokenization splits the character sequence on
the separator character, with the same semantics as Python `str.split(sep)`
for a single-character separator (an empty text yields one empty token). -/
def splitCharsOn (sep : Char) : List Char → List (List Char)
  | [] => [[]]
  | c :: cs =>
    if c = sep then [] :: splitCharsOn sep cs
    else
      match splitCharsOn sep cs with
      | [] => [[c]]
      | t :: ts => (c :: t) :: ts

def tokenize (sep : Char) (t : String) : List String :=
  (splitCharsOn sep t.toList).map (fun cs => String.mk cs)

/-- The separator character of a configuration; the script configures the
single-character separator " ". -/
def sepChar (cfg : SentenceSplitterCfg) : Char := cfg.separator.toList.headD ' '

/-- Modelled from the spec: split a text on the configured separator into
tokens, form fixed-size overlapping token windows, and rejoin each window
with the separator. -/
def splitText (cfg : SentenceSplitterCfg) (t : String) : List String :=
  (chunkWindows cfg.chunk_size cfg.chunk_overlap (tokenize (sepChar cfg) t)).map
    (String.intercalate cfg.separator)

/-- Splitting one node: one output node per chunk of its text; metadata and
provenance are inherited unchanged (spec: "a text fragment derived from
exactly one document, inheriting/propagating that document's metadata"). -/
def splitNode (cfg : SentenceSplitterCfg) (n : Node) : List Node :=
  (splitText cfg n.text).map (fun c => { n with text := c })

/-- Configuration of a `Groq` hosted-language-model client: the model
identifier used by the script (the `api_key` argument, read from the
environment, is modelled at script level by `runScript` below). -/
structure GroqCfg where
  model : String
deriving Repr, DecidableEq

/-- `llm_transformations = Groq(model="llama-3.1-8b-instant", ...)`
(lines 96-99 of `index.py`). -/
def llm_transformations : GroqCfg := { model := "llama-3.1-8b-instant" }

/-- `llm_querying = Groq(model="llama-3.3-70b-versatile", ...)`
(lines 175-178 of `index.py`). -/
def llm_querying : GroqCfg := { model := "llama-3.3-70b-versatile" }

/-- The three transformation kinds the script configures. -/
inductive Transformation where
  | sentenceSplitter (cfg : SentenceSplitterCfg)
  | titleExtractor (llm : GroqCfg) (nodes : Nat)
  | questionsAnsweredExtractor (llm : GroqCfg) (questions : Nat)
deriving Repr, DecidableEq

/-- `title_extractor = TitleExtractor(llm=llm_transformations, nodes=5)`
(lines 116-119 of `index.py`). -/
def title_extractor : Transformation :=
  Transformation.titleExtractor llm_transformations 5

/-- `questions_answered_extractor = QuestionsAnsweredExtractor(
llm=llm_transformations, questions=3)` (lines 121-124 of `index.py`). -/
def questions_answered_extractor : Transformation :=
  Transformation.questionsAnsweredExtractor llm_transformations 3

/-- `ingestion_pipeline = IngestionPipeline(transformations=[text_splitter,
title_extractor, questions_answered_extractor])` (lines 130-136 of
`index.py`). -/
def ingestion_pipeline : List Transformation :=
  [Transformation.sentenceSplitter text_splitter,
   title_extractor,
   questions_answered_extractor]

/-- Modelled from the spec: the `TitleExtractor` issues calls to the hosted
language model (abstracted here as a function from text to text) and adds
the extracted title as an additional metadata entry on each node. -/
def applyTitleExtractor (llm : String → String) (ns : List Node) : List Node :=
  ns.map fun n => { n with metadata := n.metadata ++ [("document_title", llm n.text)] }

/-- Modelled from the spec: the `QuestionsAnsweredExtractor` adds the
candidate questions answered as an additional metadata entry on each
node, via the same hosted language model. -/
def applyQuestionsExtractor (llm : String → String) (ns : List Node) : List Node :=
  ns.map fun n =>
    { n with metadata := n.metadata ++ [("questions_this_excerpt_can_answer", llm n.text)] }

/-- Semantics of one configured transformation on a node list. -/
def applyTransformation (llm : String → String) (t : Transformation)
    (ns : List Node) : List Node :=
  match t with
  | Transformation.sentenceSplitter cfg => ns.flatMap (splitNode cfg)
  | Transformation.titleExtractor _ _ => applyTitleExtractor llm ns
  | Transformation.questionsAnsweredExtractor _ _ => applyQuestionsExtractor llm ns

/-- `IngestionPipeline.run`: apply the configured transformations in order
to the input documents. -/
def runPipeline (llm : String → String) (ts : List Transformation)
    (docs : List Doc) : List Node :=
  ts.foldl (fun ns t => applyTransformation llm t ns) (docs.map docToNode)

/-- `nodes = ingestion_pipeline.run(documents=docs, ...)` (lines 139-143 of
`index.py`). -/
def nodesOf (llm : String → String) (docs : List Doc) : List Node :=
  runPipeline llm ingestion_pipeline docs

theorem nodesOf_eq (llm : String → String) (docs : List Doc) :
    nodesOf llm docs =
      applyQuestionsExtractor llm
        (applyTitleExtractor llm
          ((docs.map docToNode).flatMap (splitNode text_splitter))) := rfl

theorem one_le_length_chunkWindowsAux (size overlap fuel : Nat) (toks : List String) :
    1 ≤ (chunkWindowsAux size overlap fuel toks).length := by
  cases fuel with
  | zero => simp [chunkWindowsAux]
  | succ f =>
    simp only [chunkWindowsAux]
    split <;> simp

theorem one_le_length_splitText (cfg : SentenceSplitterCfg) (t : String) :
    1 ≤ (splitText cfg t).length := by
  simp only [splitText, chunkWindows, List.length_map]
  exact one_le_length_chunkWindowsAux _ _ _ _

theorem length_le_length_flatMap {α β : Type} (f : α → List β) (l : List α)
    (h : ∀ a ∈ l, 1 ≤ (f a).length) : l.length ≤ (l.flatMap f).length := by
  induction l with
  | nil => simp
  | cons a t ih =>
    simp only [List.flatMap_cons, List.length_append, List.length_cons]
    have ha := h a (List.mem_cons_self a t)
    have ht := ih (fun b hb => h b (List.mem_cons_of_mem a hb))
    omega

/-- C5: the ingestion pipeline is exactly the three transformations
splitter, title extractor, questions-answered extractor, both extractors
configured with the same hosted language model, and running the pipeline
applies them in exactly that order: split first, then titles, then
questions. -/
theorem c5_pipeline_three_transformations_in_order :
    ingestion_pipeline =
      [Transformation.sentenceSplitter text_splitter,
       Transformation.titleExtractor llm_transformations 5,
       Transformation.questionsAnsweredExtractor llm_transformations 3] ∧
    ingestion_pipeline.length = 3 ∧
    ∀ (llm : String → String) (docs : List Doc),
      nodesOf llm docs =
        applyQuestionsExtractor llm
          (applyTitleExtractor llm
            ((docs.map docToNode).flatMap (splitNode text_splitter))) :=
  ⟨rfl, rfl, fun llm docs => nodesOf_eq llm docs⟩

/-- C3: for a non-empty document list the pipeline produces at least as
many chunks as there are input documents: each document is split into at
least one chunk, splitting never merges across documents, and the two
extractors preserve the node count. -/
theorem c3_chunk_count_ge_doc_count (llm : String → String) (docs : List Doc)
    (hne : docs ≠ []) : docs.length ≤ (nodesOf llm docs).length := by
  have h1 : ∀ n ∈ docs.map docToNode, 1 ≤ (splitNode text_splitter n).length := by
    intro n _
    simp only [splitNode, List.length_map]
    exact one_le_length_splitText _ _
  have h2 : docs.length ≤ ((docs.map docToNode).flatMap (splitNode text_splitter)).length := by
    have := length_le_length_flatMap (splitNode text_splitter) (docs.map docToNode) h1
    simpa using this
  rw [nodesOf_eq]
  simpa only [applyQuestionsExtractor, applyTitleExtractor, List.length_map] using h2

theorem c3_chunk_count_ge_doc_count_witness :
    ([d1] : List Doc) ≠ [] ∧
    ([d1] : List Doc).length ≤ (nodesOf (fun _ => "t") [d1]).length :=
  ⟨by decide, c3_chunk_count_ge_doc_count (fun _ => "t") [d1] (by decide)⟩

/-- C8: the text splitter is deterministic: any two runs with the
configured separator " ", chunk size 1024 tokens and overlap 128 tokens on
the same input text produce the same sequence of chunks. -/
theorem c8_splitter_deterministic (t₁ t₂ : String) (h : t₁ = t₂) :
    splitText text_splitter t₁ = splitText text_splitter t₂ := by rw [h]

theorem c8_splitter_deterministic_witness :
    ("hello world" : String) = "hello world" ∧
    splitText text_splitter "hello world" = splitText text_splitter "hello world" :=
  ⟨rfl, c8_splitter_deterministic "hello world" "hello world" rfl⟩

/-- The successive stages of the script, in source order. -/
inductive Stage where
  | corpusDownload
  | documentLoading
  | metadataShaping
  | transformLLMInit
  | ingestionRun
  | indexBuild
  | queryLLMInit
  | queryRun
deriving Repr, DecidableEq

/-- The script's sequential control flow (lines 16-192 of `index.py`),
with `os.environ['GROQ_API_KEY']` (line 98) embedded as an environment
lookup that raises an unhandled `KeyError` when the variable is absent.
The result is the list of stages that actually ran, paired with either the
produced nodes or the uncaught error that terminated the process. -/
def runScript (env : String → Option String) (llm : String → String)
    (docs : List Doc) : List Stage × Except String (List Node) :=
  let pre := [Stage.corpusDownload, Stage.documentLoading, Stage.metadataShaping]
  match env "GROQ_API_KEY" with
  | none => (pre, Except.error "KeyError: GROQ_API_KEY")
  | some _ =>
    (pre ++ [Stage.transformLLMInit, Stage.ingestionRun, Stage.indexBuild,
             Stage.queryLLMInit, Stage.queryRun],
     Except.ok (nodesOf llm (shapeDocs docs)))

/-- C6: when the environment variable holding the hosted-language-model
API key is absent, the lookup raises an unhandled error that terminates
the process, and neither the ingestion run, the index build nor the query
stage runs. -/
theorem c6_missing_api_key_fails (env : String → Option String)
    (llm : String → String) (docs : List Doc)
    (h : env "GROQ_API_KEY" = none) :
    (runScript env llm docs).2 = Except.error "KeyError: GROQ_API_KEY" ∧
    Stage.ingestionRun ∉ (runScript env llm docs).1 ∧
    Stage.indexBuild ∉ (runScript env llm docs).1 ∧
    Stage.queryRun ∉ (runScript env llm docs).1 := by
  refine ⟨?_, ?_, ?_, ?_⟩ <;> simp [runScript, h]

theorem c6_missing_api_key_fails_witness :
    ((fun _ => (none : Option String)) "GROQ_API_KEY" = none) ∧
    ((runScript (fun _ => none) (fun _ => "t") []).2
        = Except.error "KeyError: GROQ_API_KEY" ∧
      Stage.ingestionRun ∉ (runScript (fun _ => none) (fun _ => "t") ([] : List Doc)).1 ∧
      Stage.indexBuild ∉ (runScript (fun _ => none) (fun _ => "t") ([] : List Doc)).1 ∧
      Stage.queryRun ∉ (runScript (fun _ => none) (fun _ => "t") ([] : List Doc)).1) :=
  ⟨rfl, c6_missing_api_key_fails (fun _ => none) (fun _ => "t") [] rfl⟩

/-- The exception-handling (try/except) sites of `index.py`, in source
order: the SSL unverified-context attribute lookup (lines 8-13, whose
`AttributeError` is silently passed) and the NLTK corpus downloads
(lines 16-21, whose exceptions are caught with a printed warning). -/
inductive CaughtErrorSite where
  | sslUnverifiedContextLookup
  | nltkDataDownload
deriving Repr, DecidableEq

def caughtErrorSites : List CaughtErrorSite :=
  [CaughtErrorSite.sslUnverifiedContextLookup, CaughtErrorSite.nltkDataDownload]

/-- The NLTK-download stage (lines 16-21 of `index.py`): a raised download
exception (modelled as `some e`, with `e` the exception text) is caught, a
warning line is printed, and execution continues to document loading
(the `true` component). -/
def nltkDownloadStage (downloadError : Option String) : List String × Bool :=
  match downloadError with
  | none => ([], true)
  | some e => (["Warning: Could not download NLTK data: " ++ e], true)

/-- C7 counterexample: the NLTK-download handler is not the only caught
error path in the script: the SSL unverified-context attribute lookup at
lines 8-13 is also wrapped in try/except. -/
theorem c7_not_only_caught_error_path :
    caughtErrorSites ≠ [CaughtErrorSite.nltkDataDownload] := by decide

/-- C7 (amended): if a tokenizer-corpus download raises an exception, the
exception is caught, a warning message is printed, and execution continues
to the document-loading stage; this handler is one of exactly two caught
error paths in the script, the other being the SSL unverified-context
attribute lookup whose `AttributeError` is silently ignored. -/
theorem c7_download_failure_caught_warned_continues :
    (∀ e : String,
      nltkDownloadStage (some e)
        = (["Warning: Could not download NLTK data: " ++ e], true)) ∧
    caughtErrorSites =
      [CaughtErrorSite.sslUnverifiedContextLookup, CaughtErrorSite.nltkDataDownload] ∧
    caughtErrorSites.length = 2 :=
  ⟨fun _ => rfl, rfl, rfl⟩

/-- The query-engine configuration built at lines 180-184 of `index.py`:
`index.as_query_engine(llm=llm_querying, similarity_top_k=5, ...)`. -/
structure QueryEngineCfg where
  llm : GroqCfg
  similarity_top_k : Nat
deriving Repr, DecidableEq

def query_engine : QueryEngineCfg := { llm := llm_querying, similarity_top_k := 5 }

/-- Modelled from the spec: similarity of two embedding vectors.
Embeddings are integer vectors; similarity is the dot product. -/
def dotSim (v w : List Int) : Int := (List.zipWith (fun a b => a * b) v w).sum

/-- Modelled from the spec: top-K retrieval lives inside the llama_index
vector index, not in this repository.  It returns the K stored items most
similar to the embedded query: the index's nodes sorted by descending
similarity to the query vector, truncated to K. -/
def retrieve (embed : String → List Int) (emb : Node → List Int)
    (k : Nat) (q : String) (stored : List Node) : List Node :=
  (stored.insertionSort
    (fun a b => dotSim (embed q) (emb b) ≤ dotSim (embed q) (emb a))).take k

/-- Modelled from the spec: the query engine embeds the query, retrieves
the top-K most similar stored chunks, and passes those chunks together
with the query to the configured hosted language model (abstracted as
`synth`) to synthesize the answer. -/
def queryEngineRun (synth : GroqCfg → String → List Node → String)
    (embed : String → List Int) (emb : Node → List Int)
    (cfg : QueryEngineCfg) (stored : List Node) (q : String) :
    String × List Node :=
  let retrieved := retrieve embed emb cfg.similarity_top_k q stored
  (synth cfg.llm q retrieved, retrieved)

/-- C9: for the issued query the engine synthesizes the answer by handing
the query and the retrieved chunks to the larger hosted model
(`llama-3.3-70b-versatile`), where the retrieved chunks are K = 5 of the
stored chunks (all of them when fewer are stored) and every retrieved
chunk is at least as similar to the embedded query as every stored chunk
left unretrieved. -/
theorem c9_query_engine_top5_most_similar
    (synth : GroqCfg → String → List Node → String)
    (embed : String → List Int) (emb : Node → List Int)
    (stored : List Node) (q : String) :
    (queryEngineRun synth embed emb query_engine stored q).1
      = synth llm_querying q (retrieve embed emb 5 q stored) ∧
    (retrieve embed emb 5 q stored).length = min 5 stored.length ∧
    ∃ rest : List Node,
      (retrieve embed emb 5 q stored ++ rest).Perm stored ∧
      ∀ a ∈ retrieve embed emb 5 q stored, ∀ b ∈ rest,
        dotSim (embed q) (emb b) ≤ dotSim (embed q) (emb a) := by
  have hTot : IsTotal Node
      (fun a b => dotSim (embed q) (emb b) ≤ dotSim (embed q) (emb a)) :=
    ⟨fun a b => le_total _ _⟩
  have hTrans : IsTrans Node
      (fun a b => dotSim (embed q) (emb b) ≤ dotSim (embed q) (emb a)) :=
    ⟨fun _ _ _ hab hbc => le_trans hbc hab⟩
  refine ⟨rfl, ?_, ?_⟩
  · simp [retrieve, List.length_take, List.length_insertionSort]
  · refine ⟨(stored.insertionSort
      (fun a b => dotSim (embed q) (emb b) ≤ dotSim (embed q) (emb a))).drop 5, ?_, ?_⟩
    · rw [retrieve, List.take_append_drop]
      exact List.perm_insertionSort _ stored
    · have hs := List.sorted_insertionSort
        (fun a b => dotSim (embed q) (emb b) ≤ dotSim (embed q) (emb a)) stored
      rw [List.Sorted, ← List.take_append_drop 5 (stored.insertionSort _),
        List.pairwise_append] at hs
      intro a ha b hb
      exact hs.2.2 a ha b hb

/-- C4: every chunk produced by the ingestion pipeline carries provenance
to exactly one source document among the inputs (uniquely determined when
document ids are distinct, as ids of loaded documents are), and the
chunk's metadata mapping contains every key present on that document's
metadata: splitting propagates the metadata unchanged and the extractors
only append entries. -/
theorem c4_chunk_metadata_retains_doc_keys
    (llm : String → String) (docs : List Doc)
    (hids : (docs.map Doc.id_).Nodup)
    (n : Node) (hn : n ∈ nodesOf llm docs) :
    ∃ d, d ∈ docs ∧ n.source_doc_id = d.id_ ∧
      (∀ k ∈ d.metadata.map Prod.fst, k ∈ n.metadata.map Prod.fst) ∧
      ∀ d', d' ∈ docs → n.source_doc_id = d'.id_ → d' = d := by
  rw [nodesOf_eq] at hn
  simp only [applyQuestionsExtractor, applyTitleExtractor] at hn
  obtain ⟨y, hy, rfl⟩ := List.mem_map.mp hn
  obtain ⟨m, hm, rfl⟩ := List.mem_map.mp hy
  obtain ⟨nd, hnd, hmnd⟩ := List.mem_flatMap.mp hm
  obtain ⟨d, hd, rfl⟩ := List.mem_map.mp hnd
  obtain ⟨c, _, rfl⟩ := List.mem_map.mp hmnd
  refine ⟨d, hd, rfl, ?_, ?_⟩
  · intro k hk
    simp only [docToNode, List.map_append, List.mem_append]
    exact Or.inl (Or.inl hk)
  · intro d' hd' heq
    exact List.inj_on_of_nodup_map hids hd' hd heq.symm

/-- The single chunk the pipeline produces from `d1` under the constant
language model `fun _ => "t"`. -/
def n1 : Node :=
  { text := "hello world"
    metadata := [("page_label", "1"), ("file_name", "a.txt"),
                 ("document_title", "t"),
                 ("questions_this_excerpt_can_answer", "t")]
    source_doc_id := "doc1" }

theorem c4_chunk_metadata_retains_doc_keys_witness :
    ∃ d, d ∈ [d1] ∧ n1.source_doc_id = d.id_ ∧
      (∀ k ∈ d.metadata.map Prod.fst, k ∈ n1.metadata.map Prod.fst) ∧
      ∀ d', d' ∈ [d1] → n1.source_doc_id = d'.id_ → d' = d :=
  c4_chunk_metadata_retains_doc_keys (fun _ => "t") [d1] (by decide) n1 (by decide)
